import Mathlib

/-!
Shallow embedding of the game-state engine of `game.py` (the combat-enabled
variant): the world model, the player state, access control, the item-effect
interpreter, the combat state machine, the win/lose evaluator and the
save/load codec.  Printing is dropped (it never affects state), the random
rolls are passed as explicit parameters, and a Python `KeyError` on a missing
room is modelled as `none`.  Python sets become `Finset`s; Python `None`
values that can flow into data positions become `Option`s.
-/

namespace Game

/-- A room record: description, items on the floor, and exits
(direction ↦ destination room name). -/
structure Room where
  description : String
  items : List String
  exits : List (String × String)
deriving DecidableEq

/-- One entry of `world["locked_exits"]`; every key may be absent in the
JSON, hence the `Option`s (`from` is a Lean keyword, so `from_room`). -/
structure Lock where
  from_room : Option String
  direction : Option String
  requires_item : Option String
  fail_text : Option String
deriving DecidableEq

/-- An enemy definition from `world["enemies"]`. -/
structure EnemyDef where
  max_hp : Int
  attack_min : Int
  attack_max : Int
  xp_reward : Int
  intro_text : Option String
  defeat_text : Option String
deriving DecidableEq

/-- A usable-item record from `world["usable_items"]` (`data` in
`use_item`); absent keys are `none` / `0` / `[]` as in the source's
`data.get` calls. -/
structure ItemData where
  effect : Option String
  amount : Int
  text : Option String
  rooms : List String
  from_room : Option String
  direction : Option String
deriving DecidableEq

/-- `world.get("win_condition", {})`: a missing record behaves as one whose
every key is absent. -/
structure WinCond where
  type : Option String
  item : Option String
  room : Option String
  text : Option String
deriving DecidableEq

/-- `world.get("lose_condition", {})`; `moves` models
`int(lose.get("moves", 0))`. -/
structure LoseCond where
  type : Option String
  moves : Int
  text : Option String
deriving DecidableEq

/-- The world description.  Room, enemy, room-enemy and usable-item tables
are association lists keyed by name, mirroring the JSON dicts. -/
structure World where
  start_room : String
  rooms : List (String × Room)
  locked_exits : List Lock
  enemies : List (String × EnemyDef)
  room_enemies : List (String × String)
  usable_items : List (String × ItemData)
  win_condition : WinCond
  lose_condition : LoseCond
deriving DecidableEq

/-- The runtime combat snapshot built by `maybe_start_room_combat`. -/
structure Enemy where
  name : String
  hp : Int
  max_hp : Int
  attack_min : Int
  attack_max : Int
  xp_reward : Int
deriving DecidableEq

/-- The mutable player state (the `state` dict of `main`).  The second
component of an `unlocked_exits` pair is an `Option` because `use_item`
inserts `data.get("direction")`, which may be `None`. -/
structure PState where
  current_room : String
  inventory : List String
  moves : Int
  health : Int
  xp : Int
  shield : Int
  lit_rooms : Finset String
  defeated_enemies : Finset String
  unlocked_exits : Finset (String × Option String)
  in_combat : Bool
  enemy : Option Enemy
deriving DecidableEq

/-- The record written by `save_game` (all keys are always written).  The
set-valued fields are serialized by `list(...)`, whose element order is
unspecified, so they are modelled as multisets. -/
structure SaveData where
  current_room : String
  inventory : List String
  moves : Int
  health : Int
  xp : Int
  shield : Int
  lit_rooms : Multiset String
  defeated_enemies : Multiset String
  unlocked_exits : Multiset (String × Option String)
  rooms : List (String × Room)
deriving DecidableEq

/-- Association-list counterpart of a Python `dict` lookup
(`d.get(key)`). -/
def alookup {α : Type} (key : String) : List (String × α) → Option α
  | [] => none
  | (k, v) :: rest => if k = key then some v else alookup key rest

/-- `world["rooms"][name]`, with `none` for the `KeyError` case. -/
def World.getRoom? (world : World) (name : String) : Option Room :=
  alookup name world.rooms

/-- In-place mutation of the room entry `name` (Python mutates the room
dict held inside `world["rooms"]`). -/
def World.setRoom (world : World) (name : String) (room : Room) : World :=
  { world with
    rooms := world.rooms.map (fun p => if p.1 = name then (name, room) else p) }

/-- `is_exit_locked`: first lock matching (from, direction), if any. -/
def is_exit_locked (world : World) (from_room direction : String) : Option Lock :=
  world.locked_exits.find? (fun lock =>
    decide (lock.from_room = some from_room ∧ lock.direction = some direction))

/-- The fixed equivalence table inside `has_equivalent_item`. -/
def equivalents : List (String × List String) :=
  [("lantern", ["torch"])]

/-- `has_equivalent_item`: the required item itself, or any member of its
equivalence class, is in the inventory. -/
def has_equivalent_item (st : PState) (required : String) : Bool :=
  if required ∈ st.inventory then true
  else
    match alookup required equivalents with
    | some eqs => eqs.any (fun e => decide (e ∈ st.inventory))
    | none => false

/-- `is_exit_unlocked`: membership of the pair in `unlocked_exits`. -/
def is_exit_unlocked (st : PState) (from_room direction : String) : Bool :=
  decide ((from_room, some direction) ∈ st.unlocked_exits)

/-- `can_go`: `(allowed, message)`, or `none` when the current room is
missing from the room table (a `KeyError` in the source). -/
def can_go (world : World) (st : PState) (direction : String) : Option (Bool × String) :=
  match World.getRoom? world st.current_room with
  | none => none
  | some room =>
    if alookup direction room.exits = none then
      some (false, "You can't go that way.")
    else if st.current_room = "Dungeon" ∧ direction = "east" ∧
            st.current_room ∉ st.lit_rooms then
      some (false, "It's too dark to find the tunnel. Light the room first. (Try: use torch)")
    else if is_exit_unlocked st st.current_room direction then
      some (true, "")
    else
      match is_exit_locked world st.current_room direction with
      | none => some (true, "")
      | some lock =>
        match lock.requires_item with
        | none => some (true, "")
        | some required =>
          if required ≠ "" ∧ ¬ has_equivalent_item st required then
            some (false, lock.fail_text.getD "That way is locked.")
          else some (true, "")

/-- `maybe_start_room_combat`: starts combat when the current room binds a
live, undefeated enemy.  The empty-name test models Python's falsiness
check `if not enemy_name`. -/
def maybe_start_room_combat (world : World) (st : PState) : PState :=
  match alookup st.current_room world.room_enemies with
  | none => st
  | some enemy_name =>
    if enemy_name = "" then st
    else if enemy_name ∈ st.defeated_enemies then st
    else
      match alookup enemy_name world.enemies with
      | none => st
      | some d =>
        { st with
          in_combat := true,
          enemy := some
            { name := enemy_name, hp := d.max_hp, max_hp := d.max_hp,
              attack_min := d.attack_min, attack_max := d.attack_max,
              xp_reward := d.xp_reward } }

/-- `move_player`; `none` models a `KeyError` on a missing room. -/
def move_player (world : World) (st : PState) (direction : String) : Option PState :=
  if st.in_combat then some st
  else
    match can_go world st direction with
    | none => none
    | some (ok, _msg) =>
      if ok = false then some st
      else
        match World.getRoom? world st.current_room with
        | none => none
        | some room =>
          match alookup direction room.exits with
          | none => none
          | some dest =>
            let st1 := { st with current_room := dest, moves := st.moves + 1 }
            some (maybe_start_room_combat world st1)

/-- `get_item` mutates both the room's item list and the player state. -/
def get_item (world : World) (st : PState) (item : String) : Option (World × PState) :=
  if st.in_combat then some (world, st)
  else
    match World.getRoom? world st.current_room with
    | none => none
    | some room =>
      if item ∉ room.items then some (world, st)
      else
        some (World.setRoom world st.current_room
                { room with items := room.items.erase item },
              { st with inventory := st.inventory ++ [item],
                        moves := st.moves + 1 })

/-- `drop_item`; the room table is only touched on the success path. -/
def drop_item (world : World) (st : PState) (item : String) : Option (World × PState) :=
  if st.in_combat then some (world, st)
  else if item ∉ st.inventory then some (world, st)
  else
    match World.getRoom? world st.current_room with
    | none => none
    | some room =>
      some (World.setRoom world st.current_room
              { room with items := room.items ++ [item] },
            { st with inventory := st.inventory.erase item,
                      moves := st.moves + 1 })

/-- `heal_player`: clamp the requested amount at 0 below, the health at
100 above. -/
def heal_player (st : PState) (amount : Int) : PState :=
  let amount' := max 0 amount
  { st with health := min 100 (st.health + amount') }

/-- `unlock_exit`: record the pair permanently. -/
def unlock_exit (st : PState) (from_room : String) (direction : Option String) : PState :=
  { st with unlocked_exits := insert (from_room, direction) st.unlocked_exits }

/-- `use_item`: the item-effect interpreter.  Note the source's very first
branch returns without touching `moves` when the item is not in the
inventory. -/
def use_item (world : World) (st : PState) (item : String) : PState :=
  if item ∉ st.inventory then st
  else
    match alookup item world.usable_items with
    | none => { st with moves := st.moves + 1 }
    | some data =>
      if data.effect = some "heal_health" then
        let st1 := heal_player st data.amount
        { st1 with moves := st1.moves + 1 }
      else if data.effect = some "light_room" then
        if data.rooms ≠ [] ∧ st.current_room ∉ data.rooms then
          { st with moves := st.moves + 1 }
        else
          { st with lit_rooms := insert st.current_room st.lit_rooms,
                    moves := st.moves + 1 }
      else if data.effect = some "unlock_exit" then
        if data.from_room = some st.current_room then
          let st1 := unlock_exit st st.current_room data.direction
          { st1 with moves := st1.moves + 1 }
        else { st with moves := st.moves + 1 }
      else if data.effect = some "shield" then
        { st with shield := max 0 data.amount, moves := st.moves + 1 }
      else { st with moves := st.moves + 1 }

/-- `apply_enemy_damage_to_player`: shield absorbs first (and is zeroed),
then health drops, floored at 0. -/
def apply_enemy_damage_to_player (st : PState) (damage : Int) : PState :=
  let d0 := max 0 damage
  if st.shield > 0 then
    let blocked := min st.shield d0
    let d1 := d0 - blocked
    { st with shield := 0, health := max 0 (st.health - d1) }
  else
    { st with health := max 0 (st.health - d0) }

/-- `combat_turn`.  The random rolls are explicit: `pdmg` is the player's
attack roll, `edmg` the enemy's, `escaped` the outcome of the escape roll
(the 0.30/0.55 boss-dependent chance only shapes that roll's
distribution).  `none` models a `KeyError` on a missing room in the
retreat path. -/
def combat_turn (world : World) (st : PState) (verb noun : String)
    (pdmg edmg : Int) (escaped : Bool) : Option PState :=
  match st.enemy with
  | none => some { st with in_combat := false }
  | some enemy =>
    if verb = "attack" then
      let enemy' : Enemy := { enemy with hp := max 0 (enemy.hp - pdmg) }
      let st1 := { st with enemy := some enemy' }
      if enemy'.hp ≤ 0 then
        some { st1 with
               xp := st1.xp + enemy'.xp_reward,
               defeated_enemies := insert enemy'.name st1.defeated_enemies,
               in_combat := false,
               enemy := none }
      else
        some (apply_enemy_damage_to_player st1 edmg)
    else if verb = "use" then
      if noun = "" then some st
      else
        let st1 := use_item world st noun
        if st1.in_combat ∧ st1.enemy.isSome then
          some (apply_enemy_damage_to_player st1 edmg)
        else some st1
    else if verb = "run" then
      if escaped then
        let st1 := { st with in_combat := false, enemy := none,
                             moves := st.moves + 1 }
        match World.getRoom? world st.current_room with
        | none => none
        | some room =>
          some (match alookup "south" room.exits with
                | some dest => { st1 with current_room := dest }
                | none =>
                  match alookup "west" room.exits with
                  | some dest => { st1 with current_room := dest }
                  | none => st1)
      else
        some (apply_enemy_damage_to_player st edmg)
    else some st

/-- `win.get("item") in state["inventory"]`: a missing item key (`None`)
is never a member of a list of strings. -/
def winItemPresent (w : WinCond) (st : PState) : Prop :=
  match w.item with
  | some i => i ∈ st.inventory
  | none => False

instance (w : WinCond) (st : PState) : Decidable (winItemPresent w st) := by
  unfold winItemPresent
  cases w.item <;> dsimp only <;> infer_instance

/-- `check_win_lose`: `(finished, message)`. -/
def check_win_lose (world : World) (st : PState) : Bool × String :=
  if st.health ≤ 0 then
    (true, "Your vision tunnels… and the castle swallows the last of your strength. You lose.")
  else
    let win := world.win_condition
    if win.type = some "has_item" ∧ winItemPresent win st then
      (true, win.text.getD "You win!")
    else if win.type = some "reach_room" ∧ win.room = some st.current_room then
      (true, win.text.getD "You win!")
    else if win.type = some "reach_room_with_item" ∧
            win.room = some st.current_room ∧ winItemPresent win st then
      (true, win.text.getD "You win!")
    else
      let lose := world.lose_condition
      if lose.type = some "max_moves" ∧ st.moves ≥ lose.moves then
        (true, lose.text.getD "You lose!")
      else (false, "")

/-- Comparator following the specification's words for the win test:
`has_item` — the item is in the inventory; `reach_room` — the current room
equals the target; `reach_room_with_item` — both. -/
def winConditionHolds (world : World) (st : PState) : Prop :=
  (world.win_condition.type = some "has_item" ∧
    winItemPresent world.win_condition st) ∨
  (world.win_condition.type = some "reach_room" ∧
    world.win_condition.room = some st.current_room) ∨
  (world.win_condition.type = some "reach_room_with_item" ∧
    world.win_condition.room = some st.current_room ∧
    winItemPresent world.win_condition st)

instance (world : World) (st : PState) : Decidable (winConditionHolds world st) := by
  unfold winConditionHolds
  infer_instance

/-- Comparator following the specification's words for the lose test:
`max_moves` fires once the move counter has reached the limit. -/
def loseConditionHolds (world : World) (st : PState) : Prop :=
  world.lose_condition.type = some "max_moves" ∧
  st.moves ≥ world.lose_condition.moves

instance (world : World) (st : PState) : Decidable (loseConditionHolds world st) := by
  unfold loseConditionHolds
  infer_instance

/-- `save_game`: the record written to disk (set-valued fields serialized
as lists, plus the current room table). -/
def save_game (world : World) (st : PState) : SaveData :=
  { current_room := st.current_room,
    inventory := st.inventory,
    moves := st.moves,
    health := st.health,
    xp := st.xp,
    shield := st.shield,
    lit_rooms := st.lit_rooms.val,
    defeated_enemies := st.defeated_enemies.val,
    unlocked_exits := st.unlocked_exits.val,
    rooms := world.rooms }

/-- The state-restoring part of `load_game`, before the combat trigger is
re-run: every field of `state` is assigned from the record (the arity
filter on `unlocked_exits` entries is vacuous on typed pairs), and
`in_combat` / `enemy` are reset unconditionally. -/
def load_game_state (data : SaveData) : PState :=
  { current_room := data.current_room,
    inventory := data.inventory,
    moves := data.moves,
    health := data.health,
    xp := data.xp,
    shield := data.shield,
    lit_rooms := data.lit_rooms.toFinset,
    defeated_enemies := data.defeated_enemies.toFinset,
    unlocked_exits := data.unlocked_exits.toFinset,
    -- the two combat fields are reset unconditionally before the trigger
    in_combat := false,
    enemy := none }

/-- `load_game` on an existing record: restore the state, merge the saved
room table into the world, then re-run the automatic combat trigger. -/
def load_game (world : World) (data : SaveData) : World × PState :=
  let world' := { world with rooms := data.rooms }
  let st' := load_game_state data
  (world', maybe_start_room_combat world' st')

/-! Small concrete fixtures used by witnesses and counterexamples. -/

/-- A hall with a gem on the floor and a locked north exit. -/
def roomHall : Room :=
  { description := "A hall.", items := ["gem"],
    exits := [("north", "Throne")] }

/-- A bare destination room. -/
def roomThrone : Room :=
  { description := "The throne room.", items := [], exits := [] }

/-- The lock on the hall's north exit. -/
def lock0 : Lock :=
  { from_room := some "Hall", direction := some "north",
    requires_item := some "iron_key", fail_text := some "Locked." }

/-- A stock enemy definition. -/
def goblinDef : EnemyDef :=
  { max_hp := 30, attack_min := 5, attack_max := 10, xp_reward := 10,
    intro_text := none, defeat_text := none }

/-- A two-room world with one lock and one room-bound enemy. -/
def world0 : World :=
  { start_room := "Hall",
    rooms := [("Hall", roomHall), ("Throne", roomThrone)],
    locked_exits := [lock0],
    enemies := [("Goblin", goblinDef)],
    room_enemies := [("Hall", "Goblin")],
    usable_items := [],
    win_condition := { type := none, item := none, room := none, text := none },
    lose_condition := { type := none, moves := 0, text := none } }

/-- The session-initial player state placed in the hall. -/
def st0 : PState :=
  { current_room := "Hall", inventory := [], moves := 0, health := 100,
    xp := 0, shield := 0, lit_rooms := ∅, defeated_enemies := ∅,
    unlocked_exits := ∅, in_combat := false, enemy := none }

/-- A runtime snapshot of the goblin at 5 HP. -/
def goblinLow : Enemy :=
  { name := "Goblin", hp := 5, max_hp := 30, attack_min := 5,
    attack_max := 10, xp_reward := 10 }

/-- The base state carrying a 10-point shield. -/
def st4 : PState := { st0 with shield := 10 }

/-- The base state with the hall's north exit recorded as unlocked. -/
def st5 : PState := { st0 with unlocked_exits := {("Hall", some "north")} }

/-- The base state holding the iron key. -/
def st5k : PState := { st0 with inventory := ["iron_key"] }

/-- The base state mid-fight against the weakened goblin. -/
def st6 : PState := { st0 with in_combat := true, enemy := some goblinLow }

/-- The base state after the goblin has been defeated. -/
def st7 : PState := { st0 with defeated_enemies := {"Goblin"} }

/-! Theorems, one per claim of the specification, with helper lemmas. -/

/-- C1: saving and then loading the written record restores `current_room`,
`inventory` (order preserved), `moves`, `health`, `xp`, `shield`,
`lit_rooms`, `defeated_enemies` and `unlocked_exits` exactly, with
`in_combat` and the active enemy unconditionally reset to `false` / `none`
before `maybe_start_room_combat` is re-run on the result. -/
theorem save_load_round_trip (world : World) (st : PState) :
    load_game_state (save_game world st) =
      { st with in_combat := false, enemy := none } ∧
    (load_game world (save_game world st)).2 =
      maybe_start_room_combat world { st with in_combat := false, enemy := none } := by
  have h : load_game_state (save_game world st) =
      { st with in_combat := false, enemy := none } := by
    cases st
    simp [load_game_state, save_game, Finset.val_toFinset]
  refine ⟨h, ?_⟩
  rw [show (load_game world (save_game world st)).2 =
        maybe_start_room_combat world (load_game_state (save_game world st)) from rfl, h]

/-- C2: starting from health in [0,100], both health-mutating operations
(`heal_player` and `apply_enemy_damage_to_player`) leave health in
[0,100]: healing clamps at 100 and damage floors at 0. -/
theorem health_clamped (st : PState) (amount damage : Int)
    (h0 : 0 ≤ st.health) (h1 : st.health ≤ 100) :
    (0 ≤ (heal_player st amount).health ∧ (heal_player st amount).health ≤ 100) ∧
    (0 ≤ (apply_enemy_damage_to_player st damage).health ∧
     (apply_enemy_damage_to_player st damage).health ≤ 100) := by
  unfold heal_player apply_enemy_damage_to_player
  split_ifs <;> simp <;> omega

/-- Witness for C2 at a concrete state: over-healing by 250 and taking 999
damage both keep health inside [0,100]. -/
theorem health_clamped_witness :
    (0 ≤ (heal_player st0 250).health ∧ (heal_player st0 250).health ≤ 100) ∧
    (0 ≤ (apply_enemy_damage_to_player st0 999).health ∧
     (apply_enemy_damage_to_player st0 999).health ≤ 100) :=
  health_clamped st0 250 999 (by decide) (by decide)

/-- C3 counterexample: with an empty inventory, `use_item` on a missing
item returns before the `moves += 1` line, so that branch does not consume
a turn. -/
theorem use_item_missing_item_no_turn :
    ¬ ((use_item world0 st0 "potion").moves = st0.moves + 1) := by decide

/-- C3 (amended): `use_item` increments the move counter by exactly one on
every branch in which the item is in the inventory — including the
no-effect-definition branch — but leaves the counter unchanged when the
item is not in the inventory. -/
theorem use_item_moves (world : World) (st : PState) (item : String) :
    (use_item world st item).moves =
      if item ∈ st.inventory then st.moves + 1 else st.moves := by
  unfold use_item
  by_cases h : item ∈ st.inventory
  · simp only [h, not_true_eq_false, if_false, if_true]
    cases alookup item world.usable_items with
    | none => rfl
    | some data =>
      dsimp only
      split_ifs <;> simp [heal_player, unlock_exit]
  · simp [h]

/-- C4: with a positive shield and nonnegative incoming damage `d`, the
shield is zeroed after absorbing `min shield d`, and health drops by the
excess `max 0 (d - shield)`, floored at 0; in particular a 10-point shield
against 15 damage costs exactly 5 health when at least 5 is available. -/
theorem shield_absorbs_first (st : PState) (d : Int)
    (hd : 0 ≤ d) (hs : 0 < st.shield) :
    (apply_enemy_damage_to_player st d).shield = 0 ∧
    (apply_enemy_damage_to_player st d).health =
      max 0 (st.health - max 0 (d - st.shield)) ∧
    (st.shield = 10 → d = 15 → 5 ≤ st.health →
      (apply_enemy_damage_to_player st d).health = st.health - 5) := by
  unfold apply_enemy_damage_to_player
  split_ifs with h
  · refine ⟨rfl, ?_, ?_⟩
    · simp only
      omega
    · intro h10 h15 h5
      simp only
      omega
  · exact absurd hs h

/-- Witness for C4 at shield 10, damage 15, health 100: the shield is
zeroed and exactly 5 health is lost. -/
theorem shield_absorbs_first_witness :
    (apply_enemy_damage_to_player st4 15).shield = 0 ∧
    (apply_enemy_damage_to_player st4 15).health = st4.health - 5 := by
  refine ⟨(shield_absorbs_first st4 15 (by decide) (by decide)).1, ?_⟩
  exact (shield_absorbs_first st4 15 (by decide) (by decide)).2.2
    (by decide) rfl (by decide)

/-- The equivalence-table check holds exactly when the required item
itself, or a torch standing in for a lantern requirement, is carried. -/
theorem has_equivalent_item_spec (st : PState) (X : String) :
    has_equivalent_item st X = true ↔
      X ∈ st.inventory ∨ (X = "lantern" ∧ "torch" ∈ st.inventory) := by
  by_cases h : X ∈ st.inventory
  · simp [has_equivalent_item, h]
  · by_cases h2 : X = "lantern"
    · subst h2
      simp [has_equivalent_item, equivalents, alookup, h]
    · simp [has_equivalent_item, equivalents, alookup, h, h2, Ne.symm h2]

/-- C5: with an existing, non-darkness-blocked exit, a pair recorded in
`unlocked_exits` makes `can_go` allow the move for every inventory; and a
lock requiring item `X` is passed whenever `X` itself or its declared
equivalent (a torch for a lantern requirement) is carried. -/
theorem can_go_unlocked_or_equivalent (world : World) (st : PState)
    (direction : String) (room : Room)
    (hroom : World.getRoom? world st.current_room = some room)
    (hexit : alookup direction room.exits ≠ none)
    (hdark : ¬ (st.current_room = "Dungeon" ∧ direction = "east" ∧
                st.current_room ∉ st.lit_rooms)) :
    ((st.current_room, some direction) ∈ st.unlocked_exits →
      ∀ inv : List String,
        can_go world { st with inventory := inv } direction = some (true, "")) ∧
    (∀ lock X, is_exit_locked world st.current_room direction = some lock →
      lock.requires_item = some X →
      (X ∈ st.inventory ∨ (X = "lantern" ∧ "torch" ∈ st.inventory)) →
      can_go world st direction = some (true, "")) := by
  obtain ⟨cr, inv0, mv, hl, xp0, sh, lit, defe, unl, ic, en⟩ := st
  simp only at hroom hexit hdark ⊢
  constructor
  · intro hu inv
    unfold can_go
    rw [hroom]
    simp only [is_exit_unlocked]
    simp [hexit, hdark, hu]
  · intro lock X hlock hreq hinv
    have heq : has_equivalent_item ⟨cr, inv0, mv, hl, xp0, sh, lit, defe, unl, ic, en⟩ X = true := by
      rw [has_equivalent_item_spec]
      simpa using hinv
    unfold can_go
    rw [hroom]
    by_cases hu : is_exit_unlocked ⟨cr, inv0, mv, hl, xp0, sh, lit, defe, unl, ic, en⟩ cr direction
    · simp [hexit, hdark, hu]
    · simp [hexit, hdark, hu, hlock, hreq, heq]

/-- Witness for C5: in the fixture world, the recorded unlocked pair lets
an empty-handed player through the locked north exit, and carrying the
required iron key passes the lock directly. -/
theorem can_go_unlocked_or_equivalent_witness :
    can_go world0 { st5 with inventory := [] } "north" = some (true, "") ∧
    can_go world0 st5k "north" = some (true, "") := by
  constructor
  · exact (can_go_unlocked_or_equivalent world0 st5 "north" roomHall
      (by decide) (by decide) (by decide)).1 (by decide) []
  · exact (can_go_unlocked_or_equivalent world0 st5k "north" roomHall
      (by decide) (by decide) (by decide)).2 lock0 "iron_key"
      (by decide) (by decide) (Or.inl (by decide))

/-- C6: an attack that brings the active enemy's HP to 0 awards the XP
reward, records the enemy's name as defeated, ends combat and clears the
active enemy, and applies no retaliation damage in that turn (health and
shield are untouched, as the resulting record shows). -/
theorem combat_attack_kill (world : World) (st : PState) (e : Enemy)
    (pdmg edmg : Int) (escaped : Bool)
    (he : st.enemy = some e) (hkill : e.hp ≤ pdmg) :
    combat_turn world st "attack" "" pdmg edmg escaped =
      some { st with
             xp := st.xp + e.xp_reward,
             defeated_enemies := insert e.name st.defeated_enemies,
             in_combat := false,
             enemy := none } := by
  unfold combat_turn
  rw [he]
  have hk : max 0 (e.hp - pdmg) ≤ 0 := by omega
  simp [hk]

/-- Witness for C6: a 9-damage strike on the 5-HP goblin ends the fight,
awards 10 XP and leaves health and shield alone. -/
theorem combat_attack_kill_witness :
    combat_turn world0 st6 "attack" "" 9 7 false =
      some { st6 with
             xp := st6.xp + goblinLow.xp_reward,
             defeated_enemies := insert goblinLow.name st6.defeated_enemies,
             in_combat := false,
             enemy := none } :=
  combat_attack_kill world0 st6 goblinLow 9 7 false (by decide) (by decide)

/-- C7: when the current room's enemy binding names an enemy already in
`defeated_enemies`, `maybe_start_room_combat` returns the state unchanged,
so it neither sets `in_combat` nor creates an active enemy. -/
theorem defeated_enemy_never_retriggers (world : World) (st : PState) (n : String)
    (hbind : alookup st.current_room world.room_enemies = some n)
    (hdef : n ∈ st.defeated_enemies) :
    maybe_start_room_combat world st = st := by
  unfold maybe_start_room_combat
  rw [hbind]
  by_cases h : n = ""
  · simp [h]
  · simp [h, hdef]

/-- Witness for C7: with the goblin recorded as defeated, entering the
hall does not restart the fight. -/
theorem defeated_enemy_never_retriggers_witness :
    maybe_start_room_combat world0 st7 = st7 :=
  defeated_enemy_never_retriggers world0 st7 "Goblin" (by decide) (by decide)

/-- C8: out of combat, moving through a direction that is not an exit of
the current room returns the player state unchanged — in particular
`current_room` and the move counter are untouched. -/
theorem move_player_no_exit_frame (world : World) (st : PState)
    (direction : String) (room : Room)
    (hc : st.in_combat = false)
    (hroom : World.getRoom? world st.current_room = some room)
    (hnoexit : alookup direction room.exits = none) :
    move_player world st direction = some st := by
  unfold move_player can_go
  rw [hroom]
  simp [hc, hnoexit]

/-- Witness for C8: "up" is not an exit of the hall, and the attempt
leaves the base state untouched. -/
theorem move_player_no_exit_frame_witness :
    move_player world0 st0 "up" = some st0 :=
  move_player_no_exit_frame world0 st0 "up" roomHall rfl (by decide) (by decide)

/-- C9: `check_win_lose` evaluates in a fixed order with first match
winning — health ≤ 0 is a loss; otherwise the win-condition variant is
tested (`has_item`: item in inventory; `reach_room`: current room equals
the target; `reach_room_with_item`: both); otherwise the `max_moves` lose
condition fires when moves ≥ the limit; no match lets the game
continue. -/
theorem check_win_lose_first_match (world : World) (st : PState) :
    check_win_lose world st =
      if st.health ≤ 0 then
        (true, "Your vision tunnels… and the castle swallows the last of your strength. You lose.")
      else if winConditionHolds world st then
        (true, world.win_condition.text.getD "You win!")
      else if loseConditionHolds world st then
        (true, world.lose_condition.text.getD "You lose!")
      else (false, "") := by
  unfold check_win_lose winConditionHolds loseConditionHolds
  by_cases h0 : st.health ≤ 0
  · simp [h0]
  · simp only [h0, if_false]
    split_ifs <;> simp_all <;> tauto

/-- C10: out of combat, `get_item` on an item absent from the current room
and `drop_item` on an item absent from the inventory both leave the world
(the room table included) and the player state entirely unchanged. -/
theorem get_drop_missing_frame (world : World) (st : PState)
    (itemA itemB : String) (room : Room)
    (hc : st.in_combat = false)
    (hroom : World.getRoom? world st.current_room = some room)
    (hA : itemA ∉ room.items)
    (hB : itemB ∉ st.inventory) :
    get_item world st itemA = some (world, st) ∧
    drop_item world st itemB = some (world, st) := by
  constructor
  · unfold get_item
    rw [hroom]
    simp [hc, hA]
  · unfold drop_item
    simp [hc, hB]

/-- Witness for C10: no sword lies in the hall and none is carried, so
getting and dropping one change nothing. -/
theorem get_drop_missing_frame_witness :
    get_item world0 st0 "sword" = some (world0, st0) ∧
    drop_item world0 st0 "sword" = some (world0, st0) :=
  get_drop_missing_frame world0 st0 "sword" "sword" roomHall rfl
    (by decide) (by decide) (by decide)

end Game
